import Mathlib

/-!
Verification of the Opus GreenNet Bridge MQTT coordinator
(`custom_components/opus_greennet/coordinator.py` and
`custom_components/opus_greennet/enocean_device.py`).

The Python code is shallowly embedded: Python scalars and JSON-like
nested data become the inductive type `JVal`; Python dicts become
association lists preserving insertion order; the coordinator's mutable
attributes become the record `CoordState`; dispatcher signals and MQTT
side effects become explicit effect lists; `async_call_later` timers
become the explicit `TimerSys` scheduler (arming returns a fresh handle,
cancelling records the handle; a handle that is armed and never
cancelled is the one whose callback will fire).
-/

set_option maxRecDepth 4000

/-- A Python dict key as it occurs in the coordinator's data trees:
either a string (from topic path segments and JSON) or an int (Python
permits `current[idx] = value` on a dict, creating an int key). -/
inductive JKey where
  | s (v : String)
  | i (v : Int)
deriving DecidableEq

/-- Python float values produced by `float(...)`: a finite value
(modelled as the exact decimal `mant * 10 ^ exp`, kept in the canonical
form where `mant` is not divisible by 10, so value equality is
structural equality), signed infinity, or NaN. -/
inductive PyFloat where
  | finite (mant exp : Int)
  | inf (neg : Bool)
  | nan
deriving DecidableEq

/-- Strip factors of 10 from the mantissa into the exponent
(fuel-bounded so the kernel can evaluate it). -/
def pyFloatStrip : Nat → Int → Int → Int × Int
  | 0, m, e => (m, e)
  | fuel + 1, m, e =>
      if m % 10 = 0 then pyFloatStrip fuel (Int.tdiv m 10) (e + 1) else (m, e)

/-- Build a canonical finite Python float from a decimal mantissa and
exponent. -/
def pyFinite (m e : Int) : PyFloat :=
  if m = 0 then .finite 0 0
  else
    let (m2, e2) := pyFloatStrip m.natAbs m e
    .finite m2 e2

/-- A Python value as it occurs in the coordinator's reconstructed
property trees: `None`, bool, int, float, str, list, dict. -/
inductive JVal where
  | null
  | bool (b : Bool)
  | int (n : Int)
  | float (f : PyFloat)
  | str (v : String)
  | arr (items : List JVal)
  | obj (fields : List (JKey × JVal))

mutual

def jvalBeq : JVal → JVal → Bool
  | .null, .null => true
  | .bool a, .bool b => a == b
  | .int a, .int b => a == b
  | .float a, .float b => a == b
  | .str a, .str b => a == b
  | .arr a, .arr b => jarrBeq a b
  | .obj a, .obj b => jobjBeq a b
  | _, _ => false
termination_by structural a => a

def jarrBeq : List JVal → List JVal → Bool
  | [], [] => true
  | x :: xs, y :: ys => jvalBeq x y && jarrBeq xs ys
  | _, _ => false
termination_by structural a => a

def jobjBeq : List (JKey × JVal) → List (JKey × JVal) → Bool
  | [], [] => true
  | (k, v) :: xs, (k2, v2) :: ys => k == k2 && jvalBeq v v2 && jobjBeq xs ys
  | _, _ => false
termination_by structural a => a

end

mutual

theorem jvalBeq_iff : ∀ a b : JVal, jvalBeq a b = true ↔ a = b
  | .null, b => by cases b <;> simp [jvalBeq]
  | .bool x, b => by cases b <;> simp [jvalBeq]
  | .int x, b => by cases b <;> simp [jvalBeq]
  | .float x, b => by cases b <;> simp [jvalBeq]
  | .str x, b => by cases b <;> simp [jvalBeq]
  | .arr x, b => by
      cases b <;> simp only [jvalBeq, Bool.false_eq_true, reduceCtorEq, JVal.arr.injEq,
        false_iff, not_false_eq_true]
      exact jarrBeq_iff x _
  | .obj x, b => by
      cases b <;> simp only [jvalBeq, Bool.false_eq_true, reduceCtorEq, JVal.obj.injEq,
        false_iff, not_false_eq_true]
      exact jobjBeq_iff x _

theorem jarrBeq_iff : ∀ a b : List JVal, jarrBeq a b = true ↔ a = b
  | [], b => by cases b <;> simp [jarrBeq]
  | x :: xs, [] => by simp [jarrBeq]
  | x :: xs, y :: ys => by
      simp only [jarrBeq, Bool.and_eq_true, List.cons.injEq]
      rw [jvalBeq_iff x y, jarrBeq_iff xs ys]

theorem jobjBeq_iff : ∀ a b : List (JKey × JVal), jobjBeq a b = true ↔ a = b
  | [], b => by cases b <;> simp [jobjBeq]
  | (k, v) :: xs, [] => by simp [jobjBeq]
  | (k, v) :: xs, (k2, v2) :: ys => by
      simp only [jobjBeq, Bool.and_eq_true, List.cons.injEq, beq_iff_eq, Prod.mk.injEq,
        jvalBeq_iff v v2, jobjBeq_iff xs ys, and_assoc]

end

instance : DecidableEq JVal := fun a b =>
  decidable_of_iff (jvalBeq a b = true) (jvalBeq_iff a b)

/-- A Python dict, modelled as an insertion-ordered association list
with unique keys (as produced by the coordinator's tree builder). -/
abbrev Obj := List (JKey × JVal)

/-- `d.get(k)` / `d[k]` lookup on an association list. -/
def alistGet {α β : Type} [DecidableEq α] : List (α × β) → α → Option β
  | [], _ => none
  | (k, v) :: rest, key => if k = key then some v else alistGet rest key

/-- `d[k] = v` on an association list: replaces the first binding of the
key in place, otherwise appends (Python dict insertion order). -/
def alistSet {α β : Type} [DecidableEq α] : List (α × β) → α → β → List (α × β)
  | [], key, v => [(key, v)]
  | (k, w) :: rest, key, v =>
      if k = key then (key, v) :: rest else (k, w) :: alistSet rest key v

/-- `d.pop(k, None)` on an association list: removes the binding. -/
def alistRemove {α β : Type} [DecidableEq α] : List (α × β) → α → List (α × β)
  | [], _ => []
  | (k, w) :: rest, key =>
      if k = key then rest else (k, w) :: alistRemove rest key

/-- `d.get(k)` with a string key. -/
def objGetS (fields : Obj) (k : String) : Option JVal :=
  alistGet fields (.s k)

/-- `d.get(k, default)` with a string key. -/
def objGetD (fields : Obj) (k : String) (d : JVal) : JVal :=
  (objGetS fields k).getD d

/-- Python truthiness of a value (`bool(x)`). NaN and infinities are
truthy; empty str/list/dict, `None`, zero are falsy. -/
def jTruthy : JVal → Bool
  | .null => false
  | .bool b => b
  | .int n => n != 0
  | .float (.finite m _) => m != 0
  | .float (.inf _) => true
  | .float .nan => true
  | .str s => s ≠ ""
  | .arr items => items ≠ []
  | .obj fields => fields ≠ []

/-- Python `a or b`: the first operand if truthy, else the second. -/
def pyOrJ (a b : JVal) : JVal :=
  if jTruthy a then a else b

/-- Strings handled character-wise (Lean's own `String.trim`,
`String.toLower`, `String.splitOn` are well-founded-recursive and do not
evaluate inside the kernel, so the Python string primitives are
re-implemented over the character list). -/
def pyStripChars (cs : List Char) : List Char :=
  ((cs.dropWhile Char.isWhitespace).reverse.dropWhile Char.isWhitespace).reverse

/-- Python `s.lower()` (ASCII model). -/
def strLowerPy (s : String) : String :=
  ⟨s.data.map Char.toLower⟩

/-- Split a character list on a separator character (Python
`s.split(sep)` for a one-character separator). -/
def charSplit : List Char → Char → List (List Char)
  | [], _ => [[]]
  | c :: rest, sep =>
      let r := charSplit rest sep
      if c = sep then [] :: r
      else
        match r with
        | h :: t => (c :: h) :: t
        | [] => [[c]]

/-- Python `path.split("/")`. -/
def splitOnSlash (s : String) : List String :=
  (charSplit s.data '/').map fun cs => ⟨cs⟩

/-- Python `str.isdigit()` on a topic path segment (ASCII model):
nonempty and all characters are decimal digits. -/
def pyIsDigitStr (s : String) : Bool :=
  s ≠ "" && s.data.all Char.isDigit

/-- Decimal digits to a natural number. -/
def digitsToNat (cs : List Char) : Nat :=
  cs.foldl (fun acc c => acc * 10 + (c.toNat - 48)) 0

/-- Validate and strip the underscores Python's numeric parsers accept:
an underscore is legal only between two digits. -/
def removeUnderscoresGo : Option Char → List Char → Option (List Char)
  | _, [] => some []
  | prev, '_' :: rest =>
      match prev, rest with
      | some p, n :: _ =>
          if p.isDigit && n.isDigit then removeUnderscoresGo (some '_') rest
          else none
      | _, _ => none
  | _, c :: rest => (removeUnderscoresGo (some c) rest).map (c :: ·)

def removeUnderscores (cs : List Char) : Option (List Char) :=
  removeUnderscoresGo none cs

/-- Python `int(s)` on a string: optional surrounding whitespace,
optional sign, then one or more decimal digits (underscores between
digits allowed). Returns `none` where Python raises `ValueError`. -/
def pyIntParse (s : String) : Option Int :=
  match removeUnderscores (pyStripChars s.data) with
  | none => none
  | some cs =>
      let (sign, rest) : Int × List Char :=
        match cs with
        | '+' :: r => (1, r)
        | '-' :: r => (-1, r)
        | r => (1, r)
      if rest ≠ [] && rest.all Char.isDigit then
        some (sign * (digitsToNat rest : Int))
      else none

/-- Mantissa of a float literal: digits, optionally a dot with more
digits; at least one digit overall. Returns (value, fraction length). -/
def pyFloatMantissa (cs : List Char) : Option (Nat × Nat) :=
  let ip := cs.takeWhile Char.isDigit
  let rest := cs.dropWhile Char.isDigit
  match rest with
  | [] => if ip = [] then none else some (digitsToNat ip, 0)
  | '.' :: fp =>
      if fp.all Char.isDigit && (ip ≠ [] || fp ≠ []) then
        some (digitsToNat (ip ++ fp), fp.length)
      else none
  | _ => none

/-- Exponent part of a float literal (after `e`/`E`). -/
def pyFloatExponent (cs : List Char) : Option Int :=
  let (sign, rest) : Int × List Char :=
    match cs with
    | '+' :: r => (1, r)
    | '-' :: r => (-1, r)
    | r => (1, r)
  if rest ≠ [] && rest.all Char.isDigit then
    some (sign * (digitsToNat rest : Int))
  else none

/-- Split a float literal at the first `e`/`E`. -/
def splitAtExpMarker (cs : List Char) : List Char × Option (List Char) :=
  let m := cs.takeWhile (fun c => c ≠ 'e' && c ≠ 'E')
  match cs.dropWhile (fun c => c ≠ 'e' && c ≠ 'E') with
  | [] => (m, none)
  | _ :: e => (m, some e)

/-- Python `float(s)`: whitespace-trimmed, optional sign, then either
`inf`/`infinity`/`nan` (case-insensitive) or a decimal literal with an
optional exponent. The finite value is kept as the exact decimal
rational. Returns `none` where Python raises `ValueError`. -/
def pyFloatParse (s : String) : Option PyFloat :=
  match removeUnderscores (pyStripChars s.data) with
  | none => none
  | some cs =>
      let (neg, rest) : Bool × List Char :=
        match cs with
        | '+' :: r => (false, r)
        | '-' :: r => (true, r)
        | r => (false, r)
      let lower := rest.map Char.toLower
      if lower = "inf".data || lower = "infinity".data then some (.inf neg)
      else if lower = "nan".data then some .nan
      else
        let (m, e) := splitAtExpMarker rest
        match pyFloatMantissa m with
        | none => none
        | some (mant, fracLen) =>
            let expVal : Option Int :=
              match e with
              | none => some 0
              | some ec => pyFloatExponent ec
            match expVal with
            | none => none
            | some ex =>
                let signedMant : Int := if neg then -(mant : Int) else (mant : Int)
                some (pyFinite signedMant (ex - (fracLen : Int)))

/-- `OpusGreenNetCoordinator._parse_value`: case-insensitive
`true`/`false` to bool, else int parse, else float parse, else the
string unchanged. Total: every failure falls through. -/
def parse_value (value : String) : JVal :=
  if strLowerPy value = "true" then .bool true
  else if strLowerPy value = "false" then .bool false
  else
    match pyIntParse value with
    | some n => .int n
    | none =>
        match pyFloatParse value with
        | some f => .float f
        | none => .str value

example : parse_value "42" = .int 42 := by decide
example : parse_value "3.14" = .float (.finite 314 (-2)) := by decide
example : parse_value "True" = .bool true := by decide
example : parse_value "hello" = .str "hello" := by decide
example : parse_value "-2.5e2" = .float (.finite (-25) 1) := by decide
example : parse_value "1_0" = .int 10 := by decide

/-- `int(x)` applied to a Python value, as used inside
`update_from_telegram` under `except (ValueError, TypeError)`: `none`
models a caught conversion failure. A float is truncated toward zero.
(Simplification: `int(inf)` actually raises `OverflowError`, which the
source would not catch; it is modelled as a failure here.) -/
def pyToInt : JVal → Option Int
  | .int n => some n
  | .bool b => some (if b then 1 else 0)
  | .str s => pyIntParse s
  | .float (.finite m e) =>
      some (if 0 ≤ e then m * (10 : Int) ^ e.toNat else Int.tdiv m ((10 : Int) ^ (-e).toNat))
  | _ => none

/-- `float(x)` applied to a Python value, under the same caught-failure
convention. -/
def pyToFloat : JVal → Option PyFloat
  | .float f => some f
  | .int n => some (pyFinite n 0)
  | .bool b => some (pyFinite (if b then 1 else 0) 0)
  | .str s => pyFloatParse s
  | _ => none

/-- Decimal rendering of a canonical finite float, matching Python
`str()` on the plain decimals the gateway produces (scientific notation
for very large/small magnitudes is not modelled). -/
def pyFloatRepr : PyFloat → String
  | .inf false => "inf"
  | .inf true => "-inf"
  | .nan => "nan"
  | .finite m e =>
      if 0 ≤ e then toString (m * (10 : Int) ^ e.toNat) ++ ".0"
      else
        let k := (-e).toNat
        let ds := (toString m.natAbs).data
        let padded := List.replicate (k + 1 - ds.length) '0' ++ ds
        let intPart : String := ⟨padded.take (padded.length - k)⟩
        let fracPart : String := ⟨padded.drop (padded.length - k)⟩
        (if m < 0 then "-" else "") ++ intPart ++ "." ++ fracPart

/-- `repr` of a dict key. -/
def pyReprKey : JKey → String
  | .s v => "'" ++ v ++ "'"
  | .i v => toString v

mutual

/-- Python `repr(x)` (used through `str()` on containers); string
escaping inside container reprs is simplified. -/
def pyRepr : JVal → String
  | .null => "None"
  | .bool true => "True"
  | .bool false => "False"
  | .int n => toString n
  | .float f => pyFloatRepr f
  | .str s => "'" ++ s ++ "'"
  | .arr items => "[" ++ pyReprItems items ++ "]"
  | .obj fields => "\x7b" ++ pyReprFields fields ++ "\x7d"
termination_by structural a => a

def pyReprItems : List JVal → String
  | [] => ""
  | [x] => pyRepr x
  | x :: xs => pyRepr x ++ ", " ++ pyReprItems xs
termination_by structural a => a

def pyReprFields : List (JKey × JVal) → String
  | [] => ""
  | [(k, v)] => pyReprKey k ++ ": " ++ pyRepr v
  | (k, v) :: xs => pyReprKey k ++ ": " ++ pyRepr v ++ ", " ++ pyReprFields xs
termination_by structural a => a

end

/-- Python `str(x)`. -/
def pyStr : JVal → String
  | .str s => s
  | v => pyRepr v

/-- Grow a list to cover index `idx`, padding with `filler`
(`while len(current) <= idx: current.append(filler)`), then set the
element at `idx` (for the terminal assignment) or leave it (for
descent). This is the closed form of the source's while loop. -/
def listPadSet (items : List JVal) (idx : Nat) (filler v : JVal) : List JVal :=
  if items.length ≤ idx then items ++ List.replicate (idx - items.length) filler ++ [v]
  else items.set idx v

/-- Pad only (descent case): after this the list has length > idx. -/
def listPad (items : List JVal) (idx : Nat) (filler : JVal) : List JVal :=
  if items.length ≤ idx then items ++ List.replicate (idx + 1 - items.length) filler
  else items

/-- `OpusGreenNetCoordinator._set_nested_property`, recursively: walk
the slash-separated path into `current`, materializing `[]` before a
numeric segment and `{}` at a named segment, padding arrays with `{}`
on descent and with `None` at a terminal numeric segment. `none` models
a raised exception (attribute/type/key error from a container of the
wrong kind); in that case the handler's `except` drops the message.
(In-place partial mutation before such an exception is not modelled:
the caller keeps the previous tree.) -/
def set_nested_go : JVal → List String → String → Option JVal
  | _, [], _ => none
  | current, [last], value =>
      if pyIsDigitStr last then
        let idx := digitsToNat last.data
        match current with
        | .arr items => some (.arr (listPadSet items idx .null (parse_value value)))
        | .obj fields =>
            -- Python: `len(dict)` works, but `.append` raises unless the
            -- dict is long enough, in which case `d[idx] = v` adds an
            -- int key.
            if fields.length ≤ idx then none
            else some (.obj (alistSet fields (.i (idx : Int)) (parse_value value)))
        | _ => none
      else
        match current with
        | .obj fields => some (.obj (alistSet fields (.s last) (parse_value value)))
        | _ => none
  | current, p :: q :: rest2, value =>
      if pyIsDigitStr q then
        -- next segment numeric: current segment denotes an array container
        match current with
        | .obj fields =>
            let child := (alistGet fields (.s p)).getD (.arr [])
            (set_nested_go child (q :: rest2) value).map fun child2 =>
              .obj (alistSet fields (.s p) child2)
        | _ => none
      else if pyIsDigitStr p then
        -- current segment is an index into the enclosing array
        let idx := digitsToNat p.data
        match current with
        | .arr items =>
            let items2 := listPad items idx (.obj [])
            match items2[idx]? with
            | some child =>
                (set_nested_go child (q :: rest2) value).map fun child2 =>
                  .arr (items2.set idx child2)
            | none => none
        | .obj fields =>
            -- int-key lookup on a dict: KeyError unless present
            if fields.length ≤ idx then none
            else
              match alistGet fields (.i (idx : Int)) with
              | some child =>
                  (set_nested_go child (q :: rest2) value).map fun child2 =>
                    .obj (alistSet fields (.i (idx : Int)) child2)
              | none => none
        | _ => none
      else
        match current with
        | .obj fields =>
            let child := (alistGet fields (.s p)).getD (.obj [])
            (set_nested_go child (q :: rest2) value).map fun child2 =>
              .obj (alistSet fields (.s p) child2)
        | _ => none
termination_by structural _c ps _v => ps

/-- `_set_nested_property(data, path, value)` on a dict root. -/
def set_nested_property (data : Obj) (path : String) (value : String) : Option Obj :=
  match set_nested_go (.obj data) (splitOnSlash path) value with
  | some (.obj fields) => some fields
  | _ => none

example :
    set_nested_property [] "eeps/0/eep" "A5-38-08"
      = some [(.s "eeps", .arr [.obj [(.s "eep", .str "A5-38-08")]])] := by decide
example :
    set_nested_property [] "states/switch" "on"
      = some [(.s "states", .obj [(.s "switch", .str "on")])] := by decide
example :
    set_nested_property [(.s "xs", .arr [.int 1])] "xs/3" "7"
      = some [(.s "xs", .arr [.int 1, .null, .null, .int 7])] := by decide

/-- `const.py` function keys. -/
def KEY_SWITCH : String := "switch"
def KEY_DIMMER : String := "dimValue"
def KEY_POSITION : String := "position"
def KEY_ANGLE : String := "angle"
def KEY_CHANNEL : String := "channel"
def KEY_LOCAL_CONTROL : String := "localControl"
def KEY_ENERGY : String := "energy"
def KEY_POWER : String := "power"
def STATE_ON : String := "on"
def DEFAULT_CHANNEL : Int := 0

/-- Modelled from the spec: `KNOWN_STATE_KEYS` is imported by the
coordinator from `const.py` but its definition is not present in the
sources; per the spec, the `states` flat dict is converted "using all
known keys", so it is taken to be the set of function keys the device
model consumes. -/
def KNOWN_STATE_KEYS : List String :=
  [KEY_SWITCH, KEY_DIMMER, KEY_POSITION, KEY_ANGLE, KEY_CHANNEL,
   KEY_LOCAL_CONTROL, KEY_ENERGY, KEY_POWER]

/-- `EnOceanChannel` (enocean_device.py): per-channel runtime state. -/
structure EnOceanChannel where
  channel_id : Int
  is_on : Bool := false
  brightness : Option Int := none
  position : Option Int := none
  angle : Option Int := none
  local_control : Bool := false
  energy : Option PyFloat := none
  power : Option PyFloat := none
deriving DecidableEq

/-- `EnOceanDevice` (enocean_device.py). `friendly_id`, `manufacturer`,
`physical_device` and `dbm` are stored unconverted (Python does not
coerce them), so they keep type `JVal`; `first_seen`/`last_seen` go
through `str(...)` in the coordinator's constructor call, but
`update_from_telegram` assigns `last_seen` raw, so it is `JVal` too. -/
structure EnOceanDevice where
  device_id : String
  friendly_id : JVal
  eeps : List JVal := []
  manufacturer : JVal := .str ""
  physical_device : JVal := .str ""
  first_seen : String := ""
  last_seen : JVal := .str ""
  dbm : JVal := .int 0
  channels : List (Int × EnOceanChannel) := []
deriving DecidableEq

/-- `EnOceanDevice.get_or_create_channel`. -/
def get_or_create_channel (d : EnOceanDevice) (channel_id : Int) : EnOceanChannel :=
  match alistGet d.channels channel_id with
  | some ch => ch
  | none => { channel_id := channel_id }

/-- One iteration of the state-update loop in
`EnOceanDevice.update_from_telegram`: apply a single `{key, value}`
function dict to the channel. A failed `int()`/`float()` conversion is
caught and leaves the field unchanged. -/
def apply_function (ch : EnOceanChannel) (f : Obj) : EnOceanChannel :=
  let key := objGetD f "key" .null
  let value := objGetD f "value" .null
  if key = .str KEY_SWITCH then
    { ch with is_on := value = .str STATE_ON }
  else if key = .str KEY_DIMMER then
    match pyToInt value with
    | some b => { ch with brightness := some b, is_on := b > 0 }
    | none => ch
  else if key = .str KEY_POSITION then
    match pyToInt value with
    | some p => { ch with position := some p }
    | none => ch
  else if key = .str KEY_ANGLE then
    match pyToInt value with
    | some a => { ch with angle := some a }
    | none => ch
  else if key = .str KEY_LOCAL_CONTROL then
    { ch with local_control := value = .str STATE_ON }
  else if key = .str KEY_ENERGY then
    match pyToFloat value with
    | some e => { ch with energy := some e }
    | none => ch
  else if key = .str KEY_POWER then
    match pyToFloat value with
    | some p => { ch with power := some p }
    | none => ch
  else ch

/-- The channel-selection loop of `update_from_telegram`: the first
function whose key is `channel` determines the channel id
(`int()` failure falls back to the default channel 0). -/
def telegram_channel_id : List Obj → Int
  | [] => DEFAULT_CHANNEL
  | f :: rest =>
      if objGetD f "key" .null = .str KEY_CHANNEL then
        ((pyToInt (objGetD f "value" (.int DEFAULT_CHANNEL))).getD DEFAULT_CHANNEL)
      else telegram_channel_id rest

/-- `EnOceanDevice.update_from_telegram`. `none` models an uncaught
exception (a non-dict entry in `functions`, or a non-dict
`telegramInfo`); the in-place mutation Python performs before such an
exception is not modelled. -/
def telegram_functions_objs (telegram : Obj) : Option (List Obj) :=
  -- `if isinstance(functions, dict): functions = [functions]`; iterating
  -- any other non-list value raises (an empty string iterates zero times),
  -- and `func.get(...)` on a non-dict element raises
  match objGetD telegram "functions" (.arr []) with
  | .obj f => some [f]
  | .arr xs => xs.mapM fun j => match j with | .obj f => some f | _ => none
  | .str s => if s = "" then some [] else none
  | _ => none

def update_from_telegram (d : EnOceanDevice) (telegram : Obj) : Option EnOceanDevice :=
  match telegram_functions_objs telegram with
  | none => none
  | some funcs =>
      let channel_id := telegram_channel_id funcs
      let ch0 := get_or_create_channel d channel_id
      let ch := funcs.foldl apply_function ch0
      let d := { d with channels := alistSet d.channels channel_id ch }
      let d :=
        match objGetS telegram "timestamp" with
        | some ts => { d with last_seen := ts }
        | none => d
      match objGetS telegram "telegramInfo" with
      | some (.obj ti) =>
          match objGetD ti "dbm" .null with
          | .null => some d
          | v => some { d with dbm := v }
      | some _ => none
      | none => some d

/-- A Python sort key produced by `int(x) if ....isdigit() else x`:
either an int or a string. -/
inductive PySortKey where
  | num (n : Int)
  | strKey (s : String)
deriving DecidableEq

/-- Lexicographic comparison of character lists (Python `str < str`,
by code points). -/
def charListLt : List Char → List Char → Bool
  | [], [] => false
  | [], _ :: _ => true
  | _ :: _, [] => false
  | c :: cs, d :: ds => if c = d then charListLt cs ds else decide (c < d)

/-- Strict less-than on sort keys; comparing an int key with a str key
is Python's `TypeError` and is handled by the callers. -/
def pySortKeyLt : PySortKey → PySortKey → Bool
  | .num a, .num b => a < b
  | .strKey a, .strKey b => charListLt a.data b.data
  | _, _ => false

/-- Stable insertion into a sorted list: the new element goes after
everything strictly smaller and before equal elements seen so far, which
together with `pySortInsertAll` processing from the right reproduces a
stable sort (Python `sorted`). -/
def pySortInsert (lt : PySortKey → PySortKey → Bool) (keyOf : JKey → PySortKey)
    (x : JKey) : List JKey → List JKey
  | [] => [x]
  | y :: ys =>
      if lt (keyOf y) (keyOf x) then y :: pySortInsert lt keyOf x ys
      else x :: y :: ys

def pySortList (lt : PySortKey → PySortKey → Bool) (keyOf : JKey → PySortKey) :
    List JKey → List JKey
  | [] => []
  | x :: xs => pySortInsert lt keyOf x (pySortList lt keyOf xs)

/-- `sorted(keys, key=lambda x: int(x) if x.isdigit() else x)` (used for
`eeps`): calling `.isdigit()` on an int key raises `AttributeError`,
and comparing an int sort key with a str sort key raises `TypeError`;
both are modelled as `none`. -/
def sortKeysRaw (keys : List JKey) : Option (List JKey) :=
  if keys.any (fun k => match k with | .i _ => true | .s _ => false) then none
  else
    let keyOf : JKey → PySortKey := fun k =>
      match k with
      | .s s => if pyIsDigitStr s then .num (digitsToNat s.data : Int) else .strKey s
      | .i n => .num n
    let mapped := keys.map keyOf
    let hasNum := mapped.any fun k => match k with | .num _ => true | _ => false
    let hasStr := mapped.any fun k => match k with | .strKey _ => true | _ => false
    if hasNum && hasStr then none
    else some (pySortList pySortKeyLt keyOf keys)

/-- `sorted(keys, key=lambda x: int(x) if str(x).isdigit() else x)`
(used for `functions` dicts): `str(x)` makes int keys legal; a negative
int key maps to a non-digit string, i.e. a str sort key. -/
def sortKeysStr (keys : List JKey) : Option (List JKey) :=
  let keyOf : JKey → PySortKey := fun k =>
    match k with
    | .s s => if pyIsDigitStr s then .num (digitsToNat s.data : Int) else .strKey s
    | .i n => if 0 ≤ n then .num n else .strKey (toString n)
  let mapped := keys.map keyOf
  let hasNum := mapped.any fun k => match k with | .num _ => true | _ => false
  let hasStr := mapped.any fun k => match k with | .strKey _ => true | _ => false
  if hasNum && hasStr then none
  else some (pySortList pySortKeyLt keyOf keys)

/-- The functions-list builder shared by `_finalize_telegram` and
`_finalize_device_stream`: a list keeps its dict entries; a dict is
walked in sorted key order keeping dict values; any other shape yields
the empty list. -/
def build_functions_list (functions_data : JVal) : Option (List Obj) :=
  match functions_data with
  | .arr xs =>
      some (xs.filterMap fun j => match j with | .obj f => some f | _ => none)
  | .obj fields =>
      match sortKeysStr (fields.map Prod.fst) with
      | none => none
      | some sorted =>
          some (sorted.filterMap fun k =>
            match alistGet fields k with
            | some (.obj f) => some f
            | _ => none)
  | _ => some []

/-- The eeps-list builder in `_create_device_from_data`: a list is kept
verbatim; a dict is walked in sorted key order, keeping dict entries and
wrapping strings as `{"eep": s}`; any other shape yields `[]`. -/
def build_eeps (data : Obj) : Option (List JVal) :=
  match objGetD data "eeps" (.obj []) with
  | .arr xs => some xs
  | .obj fields =>
      match sortKeysRaw (fields.map Prod.fst) with
      | none => none
      | some sorted =>
          some (sorted.filterMap fun k =>
            match alistGet fields k with
            | some (.obj e) => some (.obj e)
            | some (.str s) => some (.obj [(.s "eep", .str s)])
            | _ => none)
  | _ => some []

/-- The `{"key": k, "value": v}` function dicts built from a `states`
flat dict, keeping only known state keys (shared by
`_apply_initial_state` and `_finalize_device_stream` format 2). -/
def functions_from_states (states : Obj) : List Obj :=
  states.filterMap fun kv =>
    match kv.1 with
    | .s ks =>
        if KNOWN_STATE_KEYS.contains ks then
          some [(.s "key", .str ks), (.s "value", kv.2)]
        else none
    | .i _ => none

/-- `OpusGreenNetCoordinator._apply_initial_state`: convert the
discovery data's `states` dict into a telegram and apply it. A missing,
empty, or non-dict `states` leaves the device untouched. -/
def apply_initial_state (device : EnOceanDevice) (data : Obj) : Option EnOceanDevice :=
  match objGetD data "states" (.obj []) with
  | .obj (s :: ss) =>
      let functions := functions_from_states (s :: ss)
      if functions ≠ [] then
        update_from_telegram device [(.s "functions", .arr (functions.map JVal.obj))]
      else some device
  | _ => some device

/-- What an armed `async_call_later` timer will do when it fires. -/
inductive TimerPurpose where
  | discovery
  | telegram (device_id : String)
  | deviceStream (device_id : String)
deriving DecidableEq

/-- The scheduler behind `async_call_later`: arming records a fresh
handle with its callback; invoking the returned cancel callable records
the handle as cancelled. A handle that is armed and not cancelled is
exactly one whose callback will fire (once). -/
structure TimerSys where
  nextId : Nat := 0
  armed : List (Nat × TimerPurpose) := []
  cancelled : List Nat := []
deriving DecidableEq

def armTimer (ts : TimerSys) (p : TimerPurpose) : TimerSys × Nat :=
  ({ ts with nextId := ts.nextId + 1, armed := ts.armed ++ [(ts.nextId, p)] },
   ts.nextId)

def cancelTimer (ts : TimerSys) (h : Nat) : TimerSys :=
  { ts with cancelled := ts.cancelled ++ [h] }

/-- Handles of armed, not-cancelled timers with the given purpose: the
pending finalize invocations for that purpose. -/
def liveTimersFor (ts : TimerSys) (p : TimerPurpose) : List Nat :=
  (ts.armed.filter fun e => e.2 == p && !(ts.cancelled.contains e.1)).map Prod.fst

/-- Whether a handle will still fire. -/
def timerLive (ts : TimerSys) (h : Nat) : Bool :=
  (ts.armed.any fun e => e.1 == h) && !(ts.cancelled.contains h)

/-- Timer-system sanity: every armed or cancelled handle was issued. -/
def timerWf (ts : TimerSys) : Bool :=
  (ts.armed.all fun e => e.1 < ts.nextId) &&
    (ts.cancelled.all fun h => h < ts.nextId)

/-- Dispatcher signals sent by the coordinator
(`SIGNAL_DEVICE_DISCOVERED` / `SIGNAL_DEVICE_STATE_UPDATE`), carrying a
snapshot of the device at dispatch time. -/
inductive Effect where
  | discovered (dev : EnOceanDevice)
  | state_update (device_key : JVal) (dev : EnOceanDevice)
deriving DecidableEq

/-- The mutable attributes of `OpusGreenNetCoordinator` (the `hass`,
`eag_id` and gateway-info fields play no role in the claims; topic
parsing/eag filtering happens before the modelled handlers run).
`subscriptions` holds handles whose unsubscribe callables have not been
invoked; invoking one moves it to `released_subscriptions`. -/
structure CoordState where
  devices : List (JVal × EnOceanDevice) := []
  device_id_to_key : List (String × JVal) := []
  device_data : List (String × Obj) := []
  telegram_data : List (String × Obj) := []
  device_stream_data : List (String × Obj) := []
  subscriptions : List Nat := []
  released_subscriptions : List Nat := []
  discovery_complete : Bool := false
  pending_devices : List String := []
  pending_telegrams : List (String × Option Nat) := []
  pending_device_streams : List (String × Option Nat) := []
  discovery_timer : Option Nat := none
  timers : TimerSys := {}
deriving DecidableEq

/-- The two-step device lookup used by `_finalize_telegram` and
`_finalize_device_stream`: `device_id -> device_key -> device`
(`self.devices.get(device_key) if device_key else None`: a falsy key,
such as the empty string, short-circuits to `None`). -/
def device_for_id (st : CoordState) (device_id : String) : Option EnOceanDevice :=
  match alistGet st.device_id_to_key device_id with
  | some device_key =>
      if jTruthy device_key then alistGet st.devices device_key else none
  | none => none

/-- `OpusGreenNetCoordinator.get_device`: a plain lookup in the devices
map, whose keys are `friendly_id` values (a `friendly_id` taken
unconverted from the data; a string argument only ever finds
string-keyed entries). -/
def get_device (st : CoordState) (device_id : String) : Option EnOceanDevice :=
  alistGet st.devices (.str device_id)

/-- `OpusGreenNetCoordinator.async_unload`: cancel the discovery timer
if one was armed (the field itself is not cleared), invoke every
subscription's unsubscribe callable, and clear the subscription list.
Per-device pending timers are not touched. -/
def async_unload (st : CoordState) : CoordState :=
  let ts :=
    match st.discovery_timer with
    | some h => cancelTimer st.timers h
    | none => st.timers
  { st with
      timers := ts,
      released_subscriptions := st.released_subscriptions ++ st.subscriptions,
      subscriptions := [] }

/-- `OpusGreenNetCoordinator._handle_telegram_property_message` after
topic match and eag check: ensure the per-device tree exists, merge the
fragment, then cancel the pending per-device timer (when one is
recorded) and arm a fresh one. A merge exception is caught by the
handler's `except`: the freshly-ensured entry stays, the timer logic is
skipped. -/
def telegram_tree (st : CoordState) (device_id : String) : Obj :=
  match alistGet st.telegram_data device_id with
  | some d => d
  | none => [(JKey.s "deviceId", JVal.str device_id)]

def device_stream_tree (st : CoordState) (device_id : String) : Obj :=
  match alistGet st.device_stream_data device_id with
  | some d => d
  | none => [(JKey.s "deviceId", JVal.str device_id)]

def handle_telegram_property_message (st : CoordState) (device_id : String)
    (property_path : String) (payload : String) : CoordState :=
  let td := telegram_tree st device_id
  match set_nested_property td property_path payload with
  | none => { st with telegram_data := alistSet st.telegram_data device_id td }
  | some td2 =>
      let st1 := { st with telegram_data := alistSet st.telegram_data device_id td2 }
      let st2 :=
        match alistGet st1.pending_telegrams device_id with
        | some (some h) => { st1 with timers := cancelTimer st1.timers h }
        | _ => st1
      let (ts, h2) := armTimer st2.timers (.telegram device_id)
      { st2 with
          timers := ts,
          pending_telegrams := alistSet st2.pending_telegrams device_id (some h2) }

/-- `OpusGreenNetCoordinator._handle_device_stream_message` after topic
match and eag check (same debounce mechanism on the live-delta maps). -/
def handle_device_stream_message (st : CoordState) (device_id : String)
    (property_path : String) (payload : String) : CoordState :=
  let sd := device_stream_tree st device_id
  match set_nested_property sd property_path payload with
  | none => { st with device_stream_data := alistSet st.device_stream_data device_id sd }
  | some sd2 =>
      let st1 := { st with device_stream_data := alistSet st.device_stream_data device_id sd2 }
      let st2 :=
        match alistGet st1.pending_device_streams device_id with
        | some (some h) => { st1 with timers := cancelTimer st1.timers h }
        | _ => st1
      let (ts, h2) := armTimer st2.timers (.deviceStream device_id)
      { st2 with
          timers := ts,
          pending_device_streams := alistSet st2.pending_device_streams device_id (some h2) }

/-- The body of `_create_device_from_data` inside its `try`; `none`
models a raised exception (mixed-type key sort, or a raise out of
`update_from_telegram`), caught by the `except`, in which case no
coordinator attribute has been assigned yet. -/
def create_device_from_data_core (st : CoordState) (device_id : String) (data : Obj) :
    Option (CoordState × List Effect) :=
  let friendly_id := objGetD data "friendlyId" (.str device_id)
  let device_key := friendly_id
  match build_eeps data with
  | none => none
  | some eeps =>
      let is_new := (alistGet st.devices device_key).isNone
      let was_incomplete :=
        match alistGet st.devices device_key with
        | some old => old.eeps = []
        | none => false
      let device0 : EnOceanDevice :=
        { device_id := device_id
          friendly_id := friendly_id
          eeps := eeps
          manufacturer := objGetD data "manufacturer" (.str "")
          physical_device := objGetD data "physicalDevice" (.str "")
          first_seen := pyStr (objGetD data "firstSeen" (.str ""))
          last_seen := .str (pyStr (objGetD data "lastSeen" (.str "")))
          dbm := objGetD data "dbm" (.int 0)
          channels := [] }
      let device? : Option EnOceanDevice :=
        match alistGet st.devices device_key with
        | some old => some { device0 with channels := old.channels }
        | none => apply_initial_state device0 data
      match device? with
      | none => none
      | some device =>
          let st2 :=
            { st with
                devices := alistSet st.devices device_key device,
                device_id_to_key := alistSet st.device_id_to_key device_id device_key }
          let effs := if is_new || was_incomplete then [Effect.discovered device] else []
          some (st2, effs)

/-- `OpusGreenNetCoordinator._create_device_from_data` (with the
surrounding `try`/`except`). -/
def create_device_from_data (st : CoordState) (device_id : String) (data : Obj) :
    CoordState × List Effect :=
  (create_device_from_data_core st device_id data).getD (st, [])

/-- `OpusGreenNetCoordinator._finalize_discovery`: convert every pending
device's accumulated data into a device, then mark discovery complete
(the spent `_discovery_timer` handle is not cleared). -/
def finalize_discovery (st : CoordState) : CoordState × List Effect :=
  let stepped :=
    st.device_data.foldl
      (fun acc entry =>
        if acc.1.pending_devices.contains entry.1 then
          let st1 :=
            { acc.1 with
                pending_devices := acc.1.pending_devices.filter (· ≠ entry.1) }
          let (st2, effs) := create_device_from_data st1 entry.1 entry.2
          (st2, acc.2 ++ effs)
        else acc)
      (st, [])
  ({ stepped.1 with discovery_complete := true }, stepped.2)

/-- The telegram dict `_finalize_telegram` hands to
`update_from_telegram`. -/
def mk_telegram (device_id : String) (friendly_id : JVal) (functions : List Obj)
    (eff td : Obj) : Obj :=
  [(.s "deviceId", .str device_id),
   (.s "friendlyId", friendly_id),
   (.s "functions", .arr (functions.map JVal.obj)),
   (.s "timestamp", pyOrJ (objGetD eff "timestamp" .null) (objGetD td "timestamp" .null)),
   (.s "telegramInfo",
     pyOrJ (objGetD eff "telegramInfo" .null) (objGetD td "telegramInfo" (.obj [])))]

/-- `effective_data = from_data if from_data else telegram_data`. -/
def telegram_effective (td : Obj) : JVal :=
  if jTruthy (objGetD td "from" (.obj [])) then objGetD td "from" (.obj [])
  else .obj td

/-- `OpusGreenNetCoordinator._finalize_telegram`. Early returns, raised
exceptions (`.get` on a non-dict effective data, a mixed-key sort) and
the known-device skip all produce no effects; only the
unknown-device branch creates a placeholder device, emits *discovered*
and applies the telegram's functions as initial state. -/
def finalize_telegram (st : CoordState) (device_id : String) :
    CoordState × List Effect :=
  match alistGet st.telegram_data device_id with
  | none => (st, [])
  | some td =>
      let st1 :=
        { st with
            telegram_data := alistRemove st.telegram_data device_id,
            pending_telegrams := alistRemove st.pending_telegrams device_id }
      let from_data := objGetD td "from" (.obj [])
      let to_data := objGetD td "to" (.obj [])
      if jTruthy to_data && !jTruthy from_data then (st1, [])
      else
        match telegram_effective td with
        | .obj eff =>
            let direction := pyOrJ (objGetD eff "direction" .null) (objGetD td "direction" .null)
            if direction = .str "to" then (st1, [])
            else
              let friendly_id :=
                pyOrJ (objGetD eff "friendlyId" .null)
                  (pyOrJ (objGetD td "friendlyId" .null) (.str device_id))
              match build_functions_list (objGetD eff "functions" (.arr [])) with
              | none => (st1, [])
              | some functions =>
                  let telegram := mk_telegram device_id friendly_id functions eff td
                  match device_for_id st1 device_id with
                  | some _ =>
                      -- known device: telegram state updates skipped,
                      -- stream/device is authoritative
                      (st1, [])
                  | none =>
                      let device_key := friendly_id
                      let device : EnOceanDevice :=
                        { device_id := device_id, friendly_id := friendly_id }
                      let st2 :=
                        { st1 with
                            devices := alistSet st1.devices device_key device,
                            device_id_to_key :=
                              alistSet st1.device_id_to_key device_id device_key }
                      if functions ≠ [] then
                        match update_from_telegram device telegram with
                        | some device2 =>
                            ({ st2 with devices := alistSet st2.devices device_key device2 },
                             [.discovered device, .state_update device_key device2])
                        | none => (st2, [.discovered device])
                      else (st2, [.discovered device])
        | _ => (st1, [])

/-- `OpusGreenNetCoordinator._finalize_device_stream`. For an
unresolved device the accumulated delta is stored as pending discovery
data (arming the discovery timer only when no handle is recorded) — no
placeholder device, no notification; for a resolved device, functions
from the delta (or its `states` dict) are applied and a state-update is
dispatched. -/
def finalize_device_stream (st : CoordState) (device_id : String) :
    CoordState × List Effect :=
  match alistGet st.device_stream_data device_id with
  | none => (st, [])
  | some stream_data =>
      let st1 :=
        { st with
            device_stream_data := alistRemove st.device_stream_data device_id,
            pending_device_streams := alistRemove st.pending_device_streams device_id }
      match device_for_id st1 device_id with
      | none =>
          -- `friendly_id` is computed here in the source but never used
          let st2 :=
            { st1 with
                device_data := alistSet st1.device_data device_id stream_data,
                pending_devices :=
                  if st1.pending_devices.contains device_id then st1.pending_devices
                  else st1.pending_devices ++ [device_id] }
          match st2.discovery_timer with
          | none =>
              let (ts, h) := armTimer st2.timers .discovery
              ({ st2 with timers := ts, discovery_timer := some h }, [])
          | some _ => (st2, [])
      | some device =>
          let device_key := (alistGet st1.device_id_to_key device_id).getD .null
          let functions1? : Option (List Obj) :=
            match objGetD stream_data "state" (.obj []) with
            | .obj so => build_functions_list (objGetD so "functions" (.arr []))
            | _ => some []
          match functions1? with
          | none => (st1, [])
          | some fns1 =>
              let functions :=
                if fns1 ≠ [] then fns1
                else
                  match objGetD stream_data "states" (.obj []) with
                  | .obj (s :: ss) => functions_from_states (s :: ss)
                  | _ => []
              if functions ≠ [] then
                match update_from_telegram device
                    [(.s "functions", .arr (functions.map JVal.obj))] with
                | some device2 =>
                    ({ st1 with devices := alistSet st1.devices device_key device2 },
                     [.state_update device_key device2])
                | none => (st1, [])
              else (st1, [])

/-- A `{"key": .., "value": ..}` function dict in an outbound command
(values are serialized strings on the wire). -/
structure FuncKV where
  key : String
  value : String
deriving DecidableEq

/-- `OpusGreenNetCoordinator._add_channel_if_needed`: append the channel
function exactly when the channel index is positive (channel 0 is the
implicit default and omitted). -/
def add_channel_if_needed (functions : List FuncKV) (channel : Int) : List FuncKV :=
  if channel > 0 then functions ++ [⟨"channel", toString channel⟩] else functions

/-- The function list `OpusGreenNetCoordinator.async_turn_on` publishes:
explicit brightness wins, else dimmable devices get `dimValue=100`, else
`switch=on`. -/
def async_turn_on (channel : Int) (brightness : Option Int) (is_dimmable : Bool) :
    List FuncKV :=
  let functions :=
    match brightness with
    | some b => [⟨"dimValue", toString b⟩]
    | none =>
        if is_dimmable then [⟨"dimValue", "100"⟩] else [⟨"switch", "on"⟩]
  add_channel_if_needed functions channel

/-- The function list `OpusGreenNetCoordinator.async_turn_off`
publishes: dimmable devices get `dimValue=0`, else `switch=off`. -/
def async_turn_off (channel : Int) (is_dimmable : Bool) : List FuncKV :=
  let functions :=
    if is_dimmable then [⟨"dimValue", "0"⟩] else [⟨"switch", "off"⟩]
  add_channel_if_needed functions channel

/-- The transport calls a correlated query performs, in order. -/
inductive CorrEffect where
  | subscribe
  | publish
  | unsubscribe
deriving DecidableEq

/-- `OpusGreenNetCoordinator.async_get_device_configuration`: subscribe
to the answer topic, publish an empty request, await the response event
with a timeout, and unsubscribe in the `finally`. `arrival` is the
environment: `none` when no answer message arrives within the timeout,
`some decoded` when one arrives with the given `json.loads` outcome
(`none` when the payload was not JSON — the handler catches that and
leaves the result unset). -/
def async_get_device_configuration (arrival : Option (Option JVal)) :
    Option JVal × List CorrEffect :=
  let result : Option JVal :=
    match arrival with
    | some decoded => decoded
    | none => none
  (result, [.subscribe, .publish, .unsubscribe])

/-- `OpusGreenNetCoordinator.async_get_device_parameters`: identical
control flow on the parameters topics. -/
def async_get_device_parameters (arrival : Option (Option JVal)) :
    Option JVal × List CorrEffect :=
  let result : Option JVal :=
    match arrival with
    | some decoded => decoded
    | none => none
  (result, [.subscribe, .publish, .unsubscribe])

lemma charSplit_no_sep (sep : Char) :
    ∀ cs : List Char, (∀ c ∈ cs, c ≠ sep) → charSplit cs sep = [cs]
  | [], _ => rfl
  | c :: rest, h => by
      have hc : c ≠ sep := h c (by simp)
      have := charSplit_no_sep sep rest fun d hd => h d (by simp [hd])
      simp [charSplit, hc, this]

/-- C6: turn-on/turn-off encoding is capability-conditioned — dimmable
targets use `dimValue` (`100` for plain on, `0` for off, the explicit
brightness when given), non-dimmable targets use `switch` `on`/`off`,
and the channel function is appended exactly when `channel > 0`. -/
theorem c6_command_encoding (ch b : Int) :
    async_turn_on ch none true
        = ⟨"dimValue", "100"⟩ :: (if ch > 0 then [⟨"channel", toString ch⟩] else [])
  ∧ async_turn_off ch true
        = ⟨"dimValue", "0"⟩ :: (if ch > 0 then [⟨"channel", toString ch⟩] else [])
  ∧ async_turn_on ch none false
        = ⟨"switch", "on"⟩ :: (if ch > 0 then [⟨"channel", toString ch⟩] else [])
  ∧ async_turn_off ch false
        = ⟨"switch", "off"⟩ :: (if ch > 0 then [⟨"channel", toString ch⟩] else [])
  ∧ (∀ d : Bool, async_turn_on ch (some b) d
        = ⟨"dimValue", toString b⟩ :: (if ch > 0 then [⟨"channel", toString ch⟩] else [])) := by
  refine ⟨?_, ?_, ?_, ?_, fun d => ?_⟩ <;>
    · simp only [async_turn_on, async_turn_off, add_channel_if_needed]
      split <;> simp

/-- C7: `_parse_value` is total and tries, in order: case-insensitive
boolean, integer, float, and finally returns the text unchanged; with
the spec's concrete examples (`parse("1")` is the integer 1, and
`3.14` is the exact decimal `314e-2`). -/
theorem c7_parse_value_total_cascade :
    (∀ s, strLowerPy s = "true" → parse_value s = .bool true)
  ∧ (∀ s, strLowerPy s = "false" → parse_value s = .bool false)
  ∧ (∀ s n, strLowerPy s ≠ "true" → strLowerPy s ≠ "false" →
      pyIntParse s = some n → parse_value s = .int n)
  ∧ (∀ s f, strLowerPy s ≠ "true" → strLowerPy s ≠ "false" →
      pyIntParse s = none → pyFloatParse s = some f → parse_value s = .float f)
  ∧ (∀ s, strLowerPy s ≠ "true" → strLowerPy s ≠ "false" →
      pyIntParse s = none → pyFloatParse s = none → parse_value s = .str s)
  ∧ parse_value "true" = .bool true
  ∧ parse_value "True" = .bool true
  ∧ parse_value "42" = .int 42
  ∧ parse_value "3.14" = .float (.finite 314 (-2))
  ∧ parse_value "hello" = .str "hello"
  ∧ parse_value "1" = .int 1 := by
  refine ⟨?_, ?_, ?_, ?_, ?_, by decide, by decide, by decide, by decide, by decide, by decide⟩
  · intro s h; simp [parse_value, h]
  · intro s h
    by_cases h2 : strLowerPy s = "true" <;> simp [parse_value, h, h2] at h ⊢
  · intro s n h1 h2 h3; simp [parse_value, h1, h2, h3]
  · intro s f h1 h2 h3 h4; simp [parse_value, h1, h2, h3, h4]
  · intro s h1 h2 h3 h4; simp [parse_value, h1, h2, h3, h4]

/-- C7 witness: the float conjunct applied at a concrete input. -/
theorem c7_witness : parse_value "7.5" = .float (.finite 75 (-1)) :=
  c7_parse_value_total_cascade.2.2.2.1 "7.5" (.finite 75 (-1))
    (by decide) (by decide) (by decide) (by decide)

/-- C8: a terminal numeric segment whose array is shorter than the
index grows the array to index `i`, padding the missing slots with
`None` (not zero) before assigning the parsed value at `i` — both for
the bare terminal step and through `_set_nested_property` on a full
`"a/i"` path. -/
theorem c8_terminal_numeric_null_padding (items : List JVal) (key raw : String)
    (hdig : pyIsDigitStr key = true)
    (hlen : items.length ≤ digitsToNat key.data) :
    set_nested_go (.arr items) [key] raw
        = some (.arr (items ++ List.replicate (digitsToNat key.data - items.length) .null
            ++ [parse_value raw]))
  ∧ set_nested_property [(.s "a", .arr items)] ("a/" ++ key) raw
        = some [(.s "a", .arr (items ++ List.replicate (digitsToNat key.data - items.length) .null
            ++ [parse_value raw]))] := by
  have hsplit : splitOnSlash ("a/" ++ key) = ["a", key] := by
    have hdata : ("a/" ++ key).data = 'a' :: '/' :: key.data := by
      have h0 : ("a/" ++ key).data = "a/".data ++ key.data := String.data_append "a/" key
      simp only [h0]
      rfl
    have hnosep : ∀ c ∈ key.data, c ≠ '/' := by
      intro c hc hceq
      have hd : c.isDigit = true := by
        have := List.all_eq_true.mp (Bool.and_elim_right hdig) c hc
        simpa using this
      rw [hceq] at hd
      exact absurd hd (by decide)
    have h2 : charSplit key.data '/' = [key.data] := charSplit_no_sep '/' key.data hnosep
    simp [splitOnSlash, hdata, charSplit, h2]
  constructor
  · simp [set_nested_go, hdig, listPadSet, hlen]
  · have hstep : set_nested_go (.arr items) [key] raw
        = some (.arr (items ++ List.replicate (digitsToNat key.data - items.length) .null
            ++ [parse_value raw])) := by
      simp [set_nested_go, hdig, listPadSet, hlen]
    simp [set_nested_property, hsplit, set_nested_go, hdig, hstep, alistGet, alistSet,
      listPadSet, hlen, List.append_assoc]

/-- C8 witness. -/
theorem c8_witness :
    set_nested_go (.arr [.int 1]) ["3"] "7"
        = some (.arr [.int 1, .null, .null, .int 7])
  ∧ set_nested_property [(.s "a", .arr [.int 1])] "a/3" "7"
        = some [(.s "a", .arr [.int 1, .null, .null, .int 7])] := by
  have h := c8_terminal_numeric_null_padding [.int 1] "3" "7" (by decide) (by decide)
  exact ⟨by simpa using h.1, by simpa using h.2⟩

/-- C9: each correlated query publishes after subscribing, and whether
a matching response arrives in time or the timeout elapses, it returns
without raising (the timeout outcome is `none`) and invokes the
answer-topic unsubscribe exactly once. -/
theorem c9_correlated_query_unsubscribes (arrival : Option (Option JVal)) :
    ((async_get_device_configuration arrival).2 = [.subscribe, .publish, .unsubscribe])
  ∧ ((async_get_device_configuration arrival).2.count .unsubscribe = 1)
  ∧ ((async_get_device_parameters arrival).2 = [.subscribe, .publish, .unsubscribe])
  ∧ ((async_get_device_parameters arrival).2.count .unsubscribe = 1)
  ∧ (arrival = none →
      (async_get_device_configuration arrival).1 = none
        ∧ (async_get_device_parameters arrival).1 = none)
  ∧ (∀ d, arrival = some (some d) →
      (async_get_device_configuration arrival).1 = some d
        ∧ (async_get_device_parameters arrival).1 = some d) := by
  refine ⟨rfl, rfl, rfl, rfl, ?_, ?_⟩
  · rintro rfl
    exact ⟨rfl, rfl⟩
  · rintro d rfl
    exact ⟨rfl, rfl⟩

/-- C9 witness: the timeout case at a concrete input. -/
theorem c9_witness :
    (async_get_device_configuration none).1 = none
  ∧ (async_get_device_configuration none).2.count .unsubscribe = 1 :=
  ⟨(c9_correlated_query_unsubscribes none).2.2.2.2.1 rfl |>.1,
   (c9_correlated_query_unsubscribes none).2.1⟩

/-- C2: finalizing a telegram whose device id resolves (through the
device-id-to-key index) to an already-resolved device never mutates any
device's channel state and dispatches no notification — every path of
`_finalize_telegram` with a known device leaves the devices map
untouched and emits nothing. -/
theorem c2_known_device_telegram_skips_state (st : CoordState) (device_id : String)
    (dev : EnOceanDevice) (hdev : device_for_id st device_id = some dev) :
    (finalize_telegram st device_id).1.devices = st.devices
  ∧ (finalize_telegram st device_id).2 = [] := by
  unfold finalize_telegram
  cases halist : alistGet st.telegram_data device_id with
  | none => exact ⟨rfl, rfl⟩
  | some td =>
      simp only []
      have hdev1 : device_for_id
          { st with
              telegram_data := alistRemove st.telegram_data device_id,
              pending_telegrams := alistRemove st.pending_telegrams device_id }
          device_id = some dev := hdev
      split
      · exact ⟨rfl, rfl⟩
      · split
        · split
          · exact ⟨rfl, rfl⟩
          · split
            · exact ⟨rfl, rfl⟩
            · rw [hdev1]
              exact ⟨rfl, rfl⟩
        · exact ⟨rfl, rfl⟩

/-- C2 witness: a concrete state with one resolved device and a pending
telegram carrying a switch function; finalization drops the telegram
data but changes no device and emits nothing. -/
theorem c2_witness :
    (finalize_telegram
        { devices := [(.str "Lamp", { device_id := "AA", friendly_id := .str "Lamp" })],
          device_id_to_key := [("AA", .str "Lamp")],
          telegram_data :=
            [("AA",
              [(.s "deviceId", .str "AA"),
               (.s "from",
                .obj [(.s "functions",
                        .arr [.obj [(.s "key", .str "switch"), (.s "value", .str "on")]])])])] }
        "AA").1.devices
      = [(.str "Lamp", { device_id := "AA", friendly_id := .str "Lamp" })]
  ∧ (finalize_telegram
        { devices := [(.str "Lamp", { device_id := "AA", friendly_id := .str "Lamp" })],
          device_id_to_key := [("AA", .str "Lamp")],
          telegram_data :=
            [("AA",
              [(.s "deviceId", .str "AA"),
               (.s "from",
                .obj [(.s "functions",
                        .arr [.obj [(.s "key", .str "switch"), (.s "value", .str "on")]])])])] }
        "AA").2 = [] :=
  c2_known_device_telegram_skips_state _ "AA"
    { device_id := "AA", friendly_id := .str "Lamp" } (by decide)

/-- C1: re-resolving an already-resolved device under the same
device_key replaces the entry with a device whose identity, capability
and metadata fields (`eeps`, `manufacturer`, `physical_device`,
`first_seen`, `last_seen`, `dbm`) are refreshed from the new snapshot
data while the channels mapping is exactly the prior device's —
`_apply_initial_state` is not invoked, so the snapshot's `states` are
never re-applied — and no state-update notification is emitted (a
*discovered* notification only when the prior entry had no
equipment profiles). -/
theorem c1_reresolution_preserves_channels
    (st : CoordState) (device_id : String) (data : Obj) (device_key : JVal)
    (old : EnOceanDevice) (eeps : List JVal)
    (hkey : objGetD data "friendlyId" (.str device_id) = device_key)
    (hold : alistGet st.devices device_key = some old)
    (heeps : build_eeps data = some eeps) :
    (create_device_from_data st device_id data).1.devices
        = alistSet st.devices device_key
            { device_id := device_id
              friendly_id := device_key
              eeps := eeps
              manufacturer := objGetD data "manufacturer" (.str "")
              physical_device := objGetD data "physicalDevice" (.str "")
              first_seen := pyStr (objGetD data "firstSeen" (.str ""))
              last_seen := .str (pyStr (objGetD data "lastSeen" (.str "")))
              dbm := objGetD data "dbm" (.int 0)
              channels := old.channels }
  ∧ (create_device_from_data st device_id data).1.device_id_to_key
        = alistSet st.device_id_to_key device_id device_key
  ∧ (create_device_from_data st device_id data).2
        = (if old.eeps = [] then
            [Effect.discovered
              { device_id := device_id
                friendly_id := device_key
                eeps := eeps
                manufacturer := objGetD data "manufacturer" (.str "")
                physical_device := objGetD data "physicalDevice" (.str "")
                first_seen := pyStr (objGetD data "firstSeen" (.str ""))
                last_seen := .str (pyStr (objGetD data "lastSeen" (.str "")))
                dbm := objGetD data "dbm" (.int 0)
                channels := old.channels }]
           else []) := by
  simp only [create_device_from_data, create_device_from_data_core, hkey, hold, heeps,
    Option.isNone_some, Bool.false_or, Option.getD_some]
  refine ⟨by trivial, by trivial, ?_⟩
  by_cases h : old.eeps = [] <;> simp [h]

/-- C1 witness: a resolved device with channel 0 off is re-resolved
from a snapshot whose `states` say `switch=on` and whose metadata is
new — the metadata is refreshed but the channel stays off (states not
re-applied), and nothing is dispatched. -/
theorem c1_witness :
    (create_device_from_data
        { devices :=
            [(.str "Lamp",
              { device_id := "AA", friendly_id := .str "Lamp",
                eeps := [.obj [(.s "eep", .str "D2-01-02")]],
                channels := [(0, { channel_id := 0, is_on := false })] })],
          device_id_to_key := [("AA", .str "Lamp")] }
        "AA"
        [(.s "friendlyId", .str "Lamp"), (.s "manufacturer", .str "Opus"),
         (.s "eeps", .arr [.obj [(.s "eep", .str "D2-01-02")]]),
         (.s "states", .obj [(.s "switch", .str "on")])]).1.devices
      = [(.str "Lamp",
          { device_id := "AA", friendly_id := .str "Lamp",
            eeps := [.obj [(.s "eep", .str "D2-01-02")]],
            manufacturer := .str "Opus",
            channels := [(0, { channel_id := 0, is_on := false })] })] := by
  have h := c1_reresolution_preserves_channels
    { devices :=
        [(.str "Lamp",
          { device_id := "AA", friendly_id := .str "Lamp",
            eeps := [.obj [(.s "eep", .str "D2-01-02")]],
            channels := [(0, { channel_id := 0, is_on := false })] })],
      device_id_to_key := [("AA", .str "Lamp")] }
    "AA"
    [(.s "friendlyId", .str "Lamp"), (.s "manufacturer", .str "Opus"),
     (.s "eeps", .arr [.obj [(.s "eep", .str "D2-01-02")]]),
     (.s "states", .obj [(.s "switch", .str "on")])]
    (.str "Lamp")
    { device_id := "AA", friendly_id := .str "Lamp",
      eeps := [.obj [(.s "eep", .str "D2-01-02")]],
      channels := [(0, { channel_id := 0, is_on := false })] }
    [.obj [(.s "eep", .str "D2-01-02")]]
    (by decide) (by decide) (by decide)
  rw [h.1]
  decide

lemma update_from_telegram_device_id (d : EnOceanDevice) (tg : Obj)
    (d2 : EnOceanDevice) (h : update_from_telegram d tg = some d2) :
    d2.device_id = d.device_id ∧ d2.friendly_id = d.friendly_id ∧ d2.eeps = d.eeps := by
  unfold update_from_telegram at h
  iterate 8 all_goals (try split at h)
  all_goals (try (injection h with h2))
  all_goals (try (rw [← h2]))
  all_goals first
    | exact ⟨rfl, rfl, rfl⟩
    | simp_all

lemma apply_initial_state_device_id (d : EnOceanDevice) (data : Obj)
    (d2 : EnOceanDevice) (h : apply_initial_state d data = some d2) :
    d2.device_id = d.device_id ∧ d2.friendly_id = d.friendly_id ∧ d2.eeps = d.eeps := by
  unfold apply_initial_state at h
  iterate 2 all_goals (try split at h)
  case h_1 s ss =>
    simp only [ne_eq] at h
    split_ifs at h with hfn
    · injection h with h2
      rw [← h2]
      exact ⟨rfl, rfl, rfl⟩
    · exact update_from_telegram_device_id _ _ _ h
  all_goals (injection h with h2; rw [← h2]; exact ⟨rfl, rfl, rfl⟩)

/-- C10: the devices map is keyed by `friendly_id`, and `get_device`
is a plain key lookup — so resolving a fresh device whose friendly id
differs from its vendor device id makes `get_device` find it under the
friendly id and return `None` for the vendor device id (which is only
resolvable through the internal device-id-to-key index). -/
theorem c10_get_device_lookup_by_friendly_id :
    (∀ (st : CoordState) (x : String), get_device st x = alistGet st.devices (.str x))
  ∧ (∀ (device_id f : String) (data : Obj),
      objGetD data "friendlyId" (.str device_id) = .str f →
      f ≠ device_id →
      (create_device_from_data_core ({} : CoordState) device_id data).isSome →
      (∃ dev, get_device (create_device_from_data {} device_id data).1 f = some dev
          ∧ dev.device_id = device_id)
        ∧ get_device (create_device_from_data {} device_id data).1 device_id = none
        ∧ alistGet (create_device_from_data {} device_id data).1.device_id_to_key device_id
            = some (.str f)) := by
  refine ⟨fun st x => rfl, ?_⟩
  intro device_id f data hkey hne hcore
  rw [Option.isSome_iff_exists] at hcore
  obtain ⟨res, hres⟩ := hcore
  have hget : create_device_from_data {} device_id data = res := by
    simp [create_device_from_data, hres]
  unfold create_device_from_data_core at hres
  rw [hkey] at hres
  cases heeps : build_eeps data with
  | none => rw [heeps] at hres; exact absurd hres (by simp)
  | some eeps =>
      rw [heeps] at hres
      simp only [alistGet] at hres
      cases happ : apply_initial_state
          { device_id := device_id
            friendly_id := .str f
            eeps := eeps
            manufacturer := objGetD data "manufacturer" (.str "")
            physical_device := objGetD data "physicalDevice" (.str "")
            first_seen := pyStr (objGetD data "firstSeen" (.str ""))
            last_seen := .str (pyStr (objGetD data "lastSeen" (.str "")))
            dbm := objGetD data "dbm" (.int 0)
            channels := [] } data with
      | none => rw [happ] at hres; exact absurd hres (by simp)
      | some dev =>
          rw [happ] at hres
          simp only [Option.some.injEq] at hres
          have hdev := apply_initial_state_device_id _ _ _ happ
          subst hres
          rw [hget]
          refine ⟨⟨dev, ?_, hdev.1⟩, ?_, ?_⟩
          · simp [get_device, alistSet, alistGet]
          · simp [get_device, alistSet, alistGet]
            intro hcontra
            have hdf : device_id = f := by simpa using hcontra.symm
            exact hne hdf.symm
          · simp [alistSet, alistGet]

/-- C10 witness: creating `deviceId = "0123ABCD"` with
`friendlyId = "Lamp"` in an empty coordinator. -/
theorem c10_witness :
    (∃ dev,
        get_device (create_device_from_data {} "0123ABCD"
            [(.s "friendlyId", .str "Lamp")]).1 "Lamp" = some dev
      ∧ dev.device_id = "0123ABCD")
  ∧ get_device (create_device_from_data {} "0123ABCD"
        [(.s "friendlyId", .str "Lamp")]).1 "0123ABCD" = none :=
  ⟨(c10_get_device_lookup_by_friendly_id.2 "0123ABCD" "Lamp"
      [(.s "friendlyId", .str "Lamp")] (by decide) (by decide) (by decide)).1,
   (c10_get_device_lookup_by_friendly_id.2 "0123ABCD" "Lamp"
      [(.s "friendlyId", .str "Lamp")] (by decide) (by decide) (by decide)).2.1⟩

/-- C5 counterexample: a coordinator with an armed discovery timer
(handle 3), two live subscriptions, and an armed per-device telegram
debounce timer (handle 7). `async_unload` cancels the discovery timer
and releases the subscriptions, but the per-device timer is still
armed and not cancelled — its finalize callback will still fire — so
the claim that unload cancels every per-device pending timer is false. -/
theorem c5_counterexample :
    (async_unload
        { subscriptions := [0, 1],
          discovery_timer := some 3,
          pending_telegrams := [("AA", some 7)],
          timers :=
            { nextId := 8,
              armed := [(3, .discovery), (7, .telegram "AA")],
              cancelled := [] } }).timers.cancelled = [3]
  ∧ (async_unload
        { subscriptions := [0, 1],
          discovery_timer := some 3,
          pending_telegrams := [("AA", some 7)],
          timers :=
            { nextId := 8,
              armed := [(3, .discovery), (7, .telegram "AA")],
              cancelled := [] } }).pending_telegrams = [("AA", some 7)]
  ∧ timerLive
      (async_unload
        { subscriptions := [0, 1],
          discovery_timer := some 3,
          pending_telegrams := [("AA", some 7)],
          timers :=
            { nextId := 8,
              armed := [(3, .discovery), (7, .telegram "AA")],
              cancelled := [] } }).timers 7 = true := by
  refine ⟨rfl, rfl, rfl⟩

/-- C5 amended: after `async_unload`, the outstanding discovery timer
(when armed) has been cancelled and every active subscription has been
released exactly once — but the per-device pending debounce timers
(telegram and live-delta) are left untouched: no handle other than the
discovery timer's is newly cancelled, so their finalize callbacks can
still fire. -/
theorem c5_unload_cancels_discovery_only (st : CoordState) :
    (async_unload st).subscriptions = []
  ∧ (async_unload st).released_subscriptions
        = st.released_subscriptions ++ st.subscriptions
  ∧ (∀ h, st.discovery_timer = some h →
      (async_unload st).timers.cancelled.contains h = true)
  ∧ (async_unload st).pending_telegrams = st.pending_telegrams
  ∧ (async_unload st).pending_device_streams = st.pending_device_streams
  ∧ (∀ h, (async_unload st).timers.cancelled.contains h = true →
      st.timers.cancelled.contains h = true ∨ st.discovery_timer = some h)
  ∧ (async_unload st).timers.armed = st.timers.armed := by
  unfold async_unload
  cases hdt : st.discovery_timer with
  | none =>
      refine ⟨rfl, rfl, ?_, rfl, rfl, ?_, rfl⟩
      · intro h hcontra; cases hcontra
      · intro h hmem; exact Or.inl hmem
  | some h0 =>
      refine ⟨rfl, rfl, ?_, rfl, rfl, ?_, rfl⟩
      · intro h hh
        injection hh with hh2
        subst hh2
        simp [cancelTimer]
      · intro h hmem
        have hmem2 : h ∈ st.timers.cancelled ++ [h0] := by
          simpa [cancelTimer, List.contains_iff_exists_mem_beq] using hmem
        rcases List.mem_append.mp hmem2 with hm | hm
        · exact Or.inl (by simpa using hm)
        · exact Or.inr (by simp_all)

/-- C5 witness for the amended theorem, at the counterexample state. -/
theorem c5_witness :
    (async_unload
        { subscriptions := [0, 1],
          discovery_timer := some 3,
          pending_telegrams := [("AA", some 7)],
          timers :=
            { nextId := 8,
              armed := [(3, .discovery), (7, .telegram "AA")],
              cancelled := [] } }).subscriptions = []
  ∧ (async_unload
        { subscriptions := [0, 1],
          discovery_timer := some 3,
          pending_telegrams := [("AA", some 7)],
          timers :=
            { nextId := 8,
              armed := [(3, .discovery), (7, .telegram "AA")],
              cancelled := [] } }).timers.cancelled.contains 3 = true :=
  ⟨(c5_unload_cancels_discovery_only _).1,
   (c5_unload_cancels_discovery_only _).2.2.1 3 rfl⟩

lemma alistGet_alistSet_self {α β : Type} [DecidableEq α]
    (l : List (α × β)) (k : α) (v : β) :
    alistGet (alistSet l k v) k = some v := by
  induction l with
  | nil => simp [alistGet, alistSet]
  | cons hd tl ih =>
      obtain ⟨k2, v2⟩ := hd
      by_cases h : k2 = k <;> simp [alistGet, alistSet, h, ih]

/-- C4 counterexample: a live-delta for an unresolved device (`"AA"`,
carrying a switch-on function) is finalized — but no placeholder device
is created and no *discovered* (or any) notification is emitted,
contradicting the claim that the delta path synthesizes a placeholder
immediately; the data is only parked for the discovery pipeline. -/
theorem c4_counterexample :
    (finalize_device_stream
        { device_stream_data :=
            [("AA",
              [(.s "deviceId", .str "AA"),
               (.s "state",
                .obj [(.s "functions",
                        .arr [.obj [(.s "key", .str "switch"), (.s "value", .str "on")]])])])] }
        "AA").1.devices = []
  ∧ (finalize_device_stream
        { device_stream_data :=
            [("AA",
              [(.s "deviceId", .str "AA"),
               (.s "state",
                .obj [(.s "functions",
                        .arr [.obj [(.s "key", .str "switch"), (.s "value", .str "on")]])])])] }
        "AA").2 = [] := by
  refine ⟨rfl, rfl⟩

/-- C4 amended: only the telegram path synthesizes placeholders. (a)
Finalizing a telegram addressed to an unresolved device id creates a
minimal placeholder device (default fields, empty equipment-profile
list), emits *discovered*, and — when the telegram carries functions
and applying them succeeds — applies them as the placeholder's initial
channel state and emits a state-update. (b) Finalizing a live-delta
addressed to an unresolved device id creates no device and emits
nothing: the accumulated data is stored as pending discovery data and
a discovery timer is armed only if no discovery-timer handle is
recorded. -/
theorem c4_placeholder_synthesis_telegram_only :
    (∀ (st : CoordState) (device_id : String) (td eff : Obj) (fns : List Obj),
      alistGet st.telegram_data device_id = some td →
      (jTruthy (objGetD td "to" (.obj [])) && !jTruthy (objGetD td "from" (.obj []))) = false →
      telegram_effective td = .obj eff →
      pyOrJ (objGetD eff "direction" .null) (objGetD td "direction" .null) ≠ .str "to" →
      build_functions_list (objGetD eff "functions" (.arr [])) = some fns →
      device_for_id st device_id = none →
      (finalize_telegram st device_id).1.device_id_to_key
          = alistSet st.device_id_to_key device_id
              (pyOrJ (objGetD eff "friendlyId" .null)
                (pyOrJ (objGetD td "friendlyId" .null) (.str device_id)))
      ∧ (fns = [] →
          (finalize_telegram st device_id).1.devices
              = alistSet st.devices
                  (pyOrJ (objGetD eff "friendlyId" .null)
                    (pyOrJ (objGetD td "friendlyId" .null) (.str device_id)))
                  { device_id := device_id,
                    friendly_id :=
                      pyOrJ (objGetD eff "friendlyId" .null)
                        (pyOrJ (objGetD td "friendlyId" .null) (.str device_id)) }
          ∧ (finalize_telegram st device_id).2
              = [.discovered
                  { device_id := device_id,
                    friendly_id :=
                      pyOrJ (objGetD eff "friendlyId" .null)
                        (pyOrJ (objGetD td "friendlyId" .null) (.str device_id)) }])
      ∧ (∀ d2, fns ≠ [] →
          update_from_telegram
              { device_id := device_id,
                friendly_id :=
                  pyOrJ (objGetD eff "friendlyId" .null)
                    (pyOrJ (objGetD td "friendlyId" .null) (.str device_id)) }
              (mk_telegram device_id
                (pyOrJ (objGetD eff "friendlyId" .null)
                  (pyOrJ (objGetD td "friendlyId" .null) (.str device_id)))
                fns eff td) = some d2 →
          (finalize_telegram st device_id).1.devices
              = alistSet
                  (alistSet st.devices
                    (pyOrJ (objGetD eff "friendlyId" .null)
                      (pyOrJ (objGetD td "friendlyId" .null) (.str device_id)))
                    { device_id := device_id,
                      friendly_id :=
                        pyOrJ (objGetD eff "friendlyId" .null)
                          (pyOrJ (objGetD td "friendlyId" .null) (.str device_id)) })
                  (pyOrJ (objGetD eff "friendlyId" .null)
                    (pyOrJ (objGetD td "friendlyId" .null) (.str device_id)))
                  d2
          ∧ (finalize_telegram st device_id).2
              = [.discovered
                  { device_id := device_id,
                    friendly_id :=
                      pyOrJ (objGetD eff "friendlyId" .null)
                        (pyOrJ (objGetD td "friendlyId" .null) (.str device_id)) },
                 .state_update
                  (pyOrJ (objGetD eff "friendlyId" .null)
                    (pyOrJ (objGetD td "friendlyId" .null) (.str device_id)))
                  d2]))
  ∧ (∀ (st : CoordState) (device_id : String) (sd : Obj),
      alistGet st.device_stream_data device_id = some sd →
      device_for_id st device_id = none →
      (finalize_device_stream st device_id).1.devices = st.devices
      ∧ (finalize_device_stream st device_id).2 = []
      ∧ alistGet (finalize_device_stream st device_id).1.device_data device_id = some sd
      ∧ (finalize_device_stream st device_id).1.pending_devices.contains device_id = true
      ∧ (st.discovery_timer = none →
          (finalize_device_stream st device_id).1.discovery_timer = some st.timers.nextId)
      ∧ (∀ h0, st.discovery_timer = some h0 →
          (finalize_device_stream st device_id).1.discovery_timer = some h0
          ∧ (finalize_device_stream st device_id).1.timers = st.timers)) := by
  constructor
  · intro st device_id td eff fns htd hskip heff hdir hfns hdev
    have hdev1 : device_for_id
        { st with
            telegram_data := alistRemove st.telegram_data device_id,
            pending_telegrams := alistRemove st.pending_telegrams device_id }
        device_id = none := hdev
    simp only [finalize_telegram, htd, hskip, Bool.false_eq_true, if_false, heff,
      if_neg hdir, hfns, hdev1]
    refine ⟨?_, ?_, ?_⟩
    · by_cases hempty : fns = [] <;> simp [hempty]
      · cases hupd : update_from_telegram
            { device_id := device_id,
              friendly_id :=
                pyOrJ (objGetD eff "friendlyId" .null)
                  (pyOrJ (objGetD td "friendlyId" .null) (.str device_id)) }
            (mk_telegram device_id
              (pyOrJ (objGetD eff "friendlyId" .null)
                (pyOrJ (objGetD td "friendlyId" .null) (.str device_id)))
              fns eff td) <;> simp [hupd]
    · intro hempty
      simp [hempty]
    · intro d2 hne hupd
      simp [hne, hupd]
  · intro st device_id sd hsd hdev
    have hdev1 : device_for_id
        { st with
            device_stream_data := alistRemove st.device_stream_data device_id,
            pending_device_streams := alistRemove st.pending_device_streams device_id }
        device_id = none := hdev
    simp only [finalize_device_stream, hsd, hdev1]
    cases hdt : st.discovery_timer with
    | none =>
        refine ⟨rfl, rfl, ?_, ?_, fun _ => rfl, ?_⟩
        · simp [alistGet_alistSet_self]
        · by_cases hmem : device_id ∈ st.pending_devices <;>
            simp [List.contains_eq_any_beq, hmem]
        · intro h0 hcontra; cases hcontra
    | some h0 =>
        refine ⟨rfl, rfl, ?_, ?_, ?_, ?_⟩
        · simp [alistGet_alistSet_self]
        · by_cases hmem : device_id ∈ st.pending_devices <;>
            simp [List.contains_eq_any_beq, hmem]
        · intro hcontra; cases hcontra
        · intro h1 hh; injection hh with hh2; subst hh2; exact ⟨rfl, rfl⟩

/-- C4 witness for the amended theorem: a concrete telegram for
unresolved `"AA"` registers the placeholder key, and a concrete
live-delta for unresolved `"BB"` creates no device and emits nothing. -/
theorem c4_witness :
    (finalize_telegram
        { telegram_data :=
            [("AA",
              [(.s "deviceId", .str "AA"),
               (.s "from",
                .obj [(.s "functions",
                        .arr [.obj [(.s "key", .str "switch"), (.s "value", .str "on")]])])])] }
        "AA").1.device_id_to_key = [("AA", .str "AA")]
  ∧ (finalize_device_stream
        { device_stream_data := [("BB", [(.s "deviceId", .str "BB")])] } "BB").1.devices = []
  ∧ (finalize_device_stream
        { device_stream_data := [("BB", [(.s "deviceId", .str "BB")])] } "BB").2 = [] := by
  have ha := c4_placeholder_synthesis_telegram_only.1
    { telegram_data :=
        [("AA",
          [(.s "deviceId", .str "AA"),
           (.s "from",
            .obj [(.s "functions",
                    .arr [.obj [(.s "key", .str "switch"), (.s "value", .str "on")]])])])] }
    "AA"
    [(.s "deviceId", .str "AA"),
     (.s "from",
      .obj [(.s "functions",
              .arr [.obj [(.s "key", .str "switch"), (.s "value", .str "on")]])])]
    [(.s "functions", .arr [.obj [(.s "key", .str "switch"), (.s "value", .str "on")]])]
    [[(.s "key", .str "switch"), (.s "value", .str "on")]]
    (by decide) (by decide) (by decide) (by decide) (by decide) (by decide)
  have hb := c4_placeholder_synthesis_telegram_only.2
    { device_stream_data := [("BB", [(.s "deviceId", .str "BB")])] }
    "BB" [(.s "deviceId", .str "BB")] (by decide) (by decide)
  exact ⟨by simpa using ha.1, hb.1, hb.2.1⟩

/-- A burst: successive fragments for the same stream key handled
before any timer fires. -/
def telegram_burst (device_id : String) : CoordState → List (String × String) → CoordState
  | st, [] => st
  | st, (p, v) :: rest =>
      telegram_burst device_id (handle_telegram_property_message st device_id p v) rest

/-- Every fragment of the burst merges without raising (a raising
fragment is dropped by the handler and skips the timer logic). -/
def telegram_burst_ok (device_id : String) : CoordState → List (String × String) → Bool
  | _, [] => true
  | st, (p, v) :: rest =>
      (set_nested_property (telegram_tree st device_id) p v).isSome &&
        telegram_burst_ok device_id (handle_telegram_property_message st device_id p v) rest

def device_stream_burst (device_id : String) :
    CoordState → List (String × String) → CoordState
  | st, [] => st
  | st, (p, v) :: rest =>
      device_stream_burst device_id (handle_device_stream_message st device_id p v) rest

def device_stream_burst_ok (device_id : String) :
    CoordState → List (String × String) → Bool
  | _, [] => true
  | st, (p, v) :: rest =>
      (set_nested_property (device_stream_tree st device_id) p v).isSome &&
        device_stream_burst_ok device_id (handle_device_stream_message st device_id p v) rest

/-- The per-key debounce invariant: the timer system is sane and the
pending-map entry for the key holds exactly the one live timer for that
key's finalize purpose (or there is none). -/
def debounce_inv_telegram (st : CoordState) (device_id : String) : Bool :=
  timerWf st.timers &&
    (match alistGet st.pending_telegrams device_id with
     | some (some h) => liveTimersFor st.timers (.telegram device_id) == [h]
     | _ => liveTimersFor st.timers (.telegram device_id) == [])

def debounce_inv_stream (st : CoordState) (device_id : String) : Bool :=
  timerWf st.timers &&
    (match alistGet st.pending_device_streams device_id with
     | some (some h) => liveTimersFor st.timers (.deviceStream device_id) == [h]
     | _ => liveTimersFor st.timers (.deviceStream device_id) == [])

lemma liveTimersFor_armTimer (ts : TimerSys) (p q : TimerPurpose)
    (hwf : timerWf ts = true) :
    liveTimersFor (armTimer ts p).1 q
      = liveTimersFor ts q ++ (if q = p then [ts.nextId] else []) := by
  simp only [timerWf, Bool.and_eq_true, List.all_eq_true, decide_eq_true_eq] at hwf
  have hnc : ts.nextId ∉ ts.cancelled := fun hmem =>
    absurd (hwf.2 _ hmem) (lt_irrefl _)
  unfold liveTimersFor armTimer
  simp only [List.filter_append, List.map_append]
  congr 1
  by_cases hq : q = p
  · subst hq
    simp [hnc]
  · have hpq : (p == q) = false := by
      simp only [beq_eq_false_iff_ne, ne_eq]
      exact fun hc => hq hc.symm
    simp [hpq, hq]

lemma liveTimersFor_cancel_aux (c : List Nat) (h : Nat) (q : TimerPurpose) :
    ∀ l : List (Nat × TimerPurpose),
      ((l.filter fun e => e.2 == q && (!decide (e.1 ∈ c) && !decide (e.1 = h))).map Prod.fst)
        = ((l.filter fun e => e.2 == q && !decide (e.1 ∈ c)).map Prod.fst).filter
            (fun x => !decide (x = h))
  | [] => rfl
  | (id, pp) :: rest => by
      have ih := liveTimersFor_cancel_aux c h q rest
      by_cases hp : pp = q
      · subst hp
        by_cases hc : id ∈ c
        · simp [hc, ih]
        · by_cases hid : id = h
          · subst hid
            simp [hc, ih]
          · simp [hc, hid, ih]
      · have hpq : (pp == q) = false := by simpa using hp
        simp [hpq, ih]

lemma liveTimersFor_cancelTimer (ts : TimerSys) (h : Nat) (q : TimerPurpose) :
    liveTimersFor (cancelTimer ts h) q
      = (liveTimersFor ts q).filter (fun x => x ≠ h) := by
  have hfun : (fun e : Nat × TimerPurpose =>
        e.2 == q && !((ts.cancelled ++ [h]).contains e.1))
      = (fun e : Nat × TimerPurpose =>
        e.2 == q && (!decide (e.1 ∈ ts.cancelled) && !decide (e.1 = h))) := by
    funext e
    simp [List.mem_append, not_or, Bool.not_or]
  have hfun2 : (fun e : Nat × TimerPurpose => e.2 == q && !(ts.cancelled.contains e.1))
      = (fun e : Nat × TimerPurpose => e.2 == q && !decide (e.1 ∈ ts.cancelled)) := by
    funext e
    simp
  have hfun3 : (fun x : Nat => decide (x ≠ h)) = (fun x : Nat => !decide (x = h)) := by
    funext x
    simp
  unfold liveTimersFor cancelTimer
  rw [hfun, hfun2, hfun3]
  exact liveTimersFor_cancel_aux ts.cancelled h q ts.armed

lemma timerWf_armTimer (ts : TimerSys) (p : TimerPurpose) (hwf : timerWf ts = true) :
    timerWf (armTimer ts p).1 = true := by
  simp only [timerWf, armTimer, Bool.and_eq_true, List.all_eq_true, List.mem_append,
    List.mem_singleton, decide_eq_true_eq] at hwf ⊢
  obtain ⟨h1, h2⟩ := hwf
  refine ⟨fun e he => ?_, fun x hx => Nat.lt_succ_of_lt (h2 x hx)⟩
  rcases he with he | he
  · exact Nat.lt_succ_of_lt (h1 e he)
  · subst he
    exact Nat.lt_succ_self _

lemma timerWf_cancelTimer (ts : TimerSys) (h : Nat) (hh : h < ts.nextId)
    (hwf : timerWf ts = true) :
    timerWf (cancelTimer ts h) = true := by
  simp only [timerWf, cancelTimer, Bool.and_eq_true, List.all_eq_true, List.mem_append,
    List.mem_singleton, decide_eq_true_eq] at hwf ⊢
  obtain ⟨h1, h2⟩ := hwf
  refine ⟨h1, fun x hx => ?_⟩
  rcases hx with hx | hx
  · exact h2 x hx
  · subst hx
    exact hh

lemma liveTimersFor_lt (ts : TimerSys) (p : TimerPurpose) (x : Nat)
    (hwf : timerWf ts = true) (hx : x ∈ liveTimersFor ts p) : x < ts.nextId := by
  simp only [timerWf, Bool.and_eq_true, List.all_eq_true, decide_eq_true_eq] at hwf
  unfold liveTimersFor at hx
  obtain ⟨e, he, hfst⟩ := List.mem_map.mp hx
  have harm : e ∈ ts.armed := List.mem_of_mem_filter he
  have := hwf.1 e harm
  omega

lemma liveTimersFor_arm_rec (ts : TimerSys) (p q : TimerPurpose)
    (hwf : timerWf ts = true) :
    liveTimersFor
        { nextId := ts.nextId + 1, armed := ts.armed ++ [(ts.nextId, p)],
          cancelled := ts.cancelled } q
      = liveTimersFor ts q ++ (if q = p then [ts.nextId] else []) :=
  liveTimersFor_armTimer ts p q hwf

lemma liveTimersFor_cancel_rec (ts : TimerSys) (h : Nat) (q : TimerPurpose) :
    liveTimersFor
        { nextId := ts.nextId, armed := ts.armed, cancelled := ts.cancelled ++ [h] } q
      = (liveTimersFor ts q).filter (fun x => x ≠ h) :=
  liveTimersFor_cancelTimer ts h q

lemma telegram_step_debounce (st : CoordState) (device_id : String) (p v : String)
    (hok : (set_nested_property (telegram_tree st device_id) p v).isSome = true)
    (hinv : debounce_inv_telegram st device_id = true) :
    debounce_inv_telegram (handle_telegram_property_message st device_id p v) device_id = true
  ∧ liveTimersFor (handle_telegram_property_message st device_id p v).timers
        (.telegram device_id) = [st.timers.nextId]
  ∧ (∀ h, alistGet st.pending_telegrams device_id = some (some h) →
      (handle_telegram_property_message st device_id p v).timers.cancelled.contains h
        = true) := by
  rw [Option.isSome_iff_exists] at hok
  obtain ⟨td2, hset⟩ := hok
  simp only [debounce_inv_telegram, Bool.and_eq_true] at hinv
  obtain ⟨hwf, hmatch⟩ := hinv
  unfold handle_telegram_property_message
  simp only [hset]
  cases halist : alistGet st.pending_telegrams device_id with
  | none =>
      have hlive : liveTimersFor st.timers (.telegram device_id) = [] := by
        rw [halist] at hmatch
        simpa using hmatch
      refine ⟨?_, ?_, ?_⟩
      · simp only [debounce_inv_telegram, armTimer, Bool.and_eq_true,
          alistGet_alistSet_self]
        exact ⟨timerWf_armTimer _ _ hwf,
          by simp [liveTimersFor_arm_rec st.timers _ _ hwf, hlive]⟩
      · simp only [armTimer]
        simp [liveTimersFor_arm_rec st.timers _ _ hwf, hlive]
      · intro h hh
        simp [halist] at hh
  | some oh =>
      cases oh with
      | none =>
          have hlive : liveTimersFor st.timers (.telegram device_id) = [] := by
            rw [halist] at hmatch
            simpa using hmatch
          refine ⟨?_, ?_, ?_⟩
          · simp only [debounce_inv_telegram, armTimer, Bool.and_eq_true,
              alistGet_alistSet_self]
            exact ⟨timerWf_armTimer _ _ hwf,
              by simp [liveTimersFor_arm_rec st.timers _ _ hwf, hlive]⟩
          · simp only [armTimer]
            simp [liveTimersFor_arm_rec st.timers _ _ hwf, hlive]
          · intro h hh
            simp [halist] at hh
      | some h0 =>
          have hlive : liveTimersFor st.timers (.telegram device_id) = [h0] := by
            rw [halist] at hmatch
            simpa using hmatch
          have hh0 : h0 < st.timers.nextId :=
            liveTimersFor_lt st.timers (.telegram device_id) h0 hwf (by simp [hlive])
          have hwf2 : timerWf (cancelTimer st.timers h0) = true :=
            timerWf_cancelTimer st.timers h0 hh0 hwf
          have hlive2 : liveTimersFor (cancelTimer st.timers h0) (.telegram device_id)
              = [] := by
            rw [liveTimersFor_cancelTimer, hlive]
            simp
          have harm := liveTimersFor_arm_rec (cancelTimer st.timers h0)
            (.telegram device_id) (.telegram device_id) hwf2
          refine ⟨?_, ?_, ?_⟩
          · simp only [debounce_inv_telegram, armTimer, Bool.and_eq_true,
              alistGet_alistSet_self]
            refine ⟨timerWf_armTimer _ _ hwf2, ?_⟩
            rw [harm, hlive2]
            simp
          · simp only [armTimer]
            rw [harm, hlive2]
            simp [cancelTimer]
          · intro h hh
            injection hh with hh1
            injection hh1 with hh2
            subst hh2
            simp [armTimer, cancelTimer]

lemma device_stream_step_debounce (st : CoordState) (device_id : String) (p v : String)
    (hok : (set_nested_property (device_stream_tree st device_id) p v).isSome = true)
    (hinv : debounce_inv_stream st device_id = true) :
    debounce_inv_stream (handle_device_stream_message st device_id p v) device_id = true
  ∧ liveTimersFor (handle_device_stream_message st device_id p v).timers
        (.deviceStream device_id) = [st.timers.nextId]
  ∧ (∀ h, alistGet st.pending_device_streams device_id = some (some h) →
      (handle_device_stream_message st device_id p v).timers.cancelled.contains h
        = true) := by
  rw [Option.isSome_iff_exists] at hok
  obtain ⟨td2, hset⟩ := hok
  simp only [debounce_inv_stream, Bool.and_eq_true] at hinv
  obtain ⟨hwf, hmatch⟩ := hinv
  unfold handle_device_stream_message
  simp only [hset]
  cases halist : alistGet st.pending_device_streams device_id with
  | none =>
      have hlive : liveTimersFor st.timers (.deviceStream device_id) = [] := by
        rw [halist] at hmatch
        simpa using hmatch
      refine ⟨?_, ?_, ?_⟩
      · simp only [debounce_inv_stream, armTimer, Bool.and_eq_true,
          alistGet_alistSet_self]
        exact ⟨timerWf_armTimer _ _ hwf,
          by simp [liveTimersFor_arm_rec st.timers _ _ hwf, hlive]⟩
      · simp only [armTimer]
        simp [liveTimersFor_arm_rec st.timers _ _ hwf, hlive]
      · intro h hh
        simp [halist] at hh
  | some oh =>
      cases oh with
      | none =>
          have hlive : liveTimersFor st.timers (.deviceStream device_id) = [] := by
            rw [halist] at hmatch
            simpa using hmatch
          refine ⟨?_, ?_, ?_⟩
          · simp only [debounce_inv_stream, armTimer, Bool.and_eq_true,
              alistGet_alistSet_self]
            exact ⟨timerWf_armTimer _ _ hwf,
              by simp [liveTimersFor_arm_rec st.timers _ _ hwf, hlive]⟩
          · simp only [armTimer]
            simp [liveTimersFor_arm_rec st.timers _ _ hwf, hlive]
          · intro h hh
            simp [halist] at hh
      | some h0 =>
          have hlive : liveTimersFor st.timers (.deviceStream device_id) = [h0] := by
            rw [halist] at hmatch
            simpa using hmatch
          have hh0 : h0 < st.timers.nextId :=
            liveTimersFor_lt st.timers (.deviceStream device_id) h0 hwf (by simp [hlive])
          have hwf2 : timerWf (cancelTimer st.timers h0) = true :=
            timerWf_cancelTimer st.timers h0 hh0 hwf
          have hlive2 : liveTimersFor (cancelTimer st.timers h0) (.deviceStream device_id)
              = [] := by
            rw [liveTimersFor_cancelTimer, hlive]
            simp
          have harm := liveTimersFor_arm_rec (cancelTimer st.timers h0)
            (.deviceStream device_id) (.deviceStream device_id) hwf2
          refine ⟨?_, ?_, ?_⟩
          · simp only [debounce_inv_stream, armTimer, Bool.and_eq_true,
              alistGet_alistSet_self]
            refine ⟨timerWf_armTimer _ _ hwf2, ?_⟩
            rw [harm, hlive2]
            simp
          · simp only [armTimer]
            rw [harm, hlive2]
            simp [cancelTimer]
          · intro h hh
            injection hh with hh1
            injection hh1 with hh2
            subst hh2
            simp [armTimer, cancelTimer]

lemma telegram_burst_live (device_id : String) :
    ∀ (frags : List (String × String)) (st : CoordState) (f : String × String),
      debounce_inv_telegram st device_id = true →
      telegram_burst_ok device_id st (f :: frags) = true →
      (liveTimersFor (telegram_burst device_id st (f :: frags)).timers
          (.telegram device_id)).length = 1
  | [], st, (p, v), hinv, hok => by
      simp only [telegram_burst_ok, Bool.and_eq_true] at hok
      have hstep := telegram_step_debounce st device_id p v hok.1 hinv
      simp only [telegram_burst]
      rw [hstep.2.1]
      rfl
  | g :: rest, st, (p, v), hinv, hok => by
      simp only [telegram_burst_ok, Bool.and_eq_true] at hok
      have hstep := telegram_step_debounce st device_id p v hok.1 hinv
      simp only [telegram_burst]
      exact telegram_burst_live device_id rest
        (handle_telegram_property_message st device_id p v) g hstep.1
        (by simpa [telegram_burst_ok] using hok.2)

lemma device_stream_burst_live (device_id : String) :
    ∀ (frags : List (String × String)) (st : CoordState) (f : String × String),
      debounce_inv_stream st device_id = true →
      device_stream_burst_ok device_id st (f :: frags) = true →
      (liveTimersFor (device_stream_burst device_id st (f :: frags)).timers
          (.deviceStream device_id)).length = 1
  | [], st, (p, v), hinv, hok => by
      simp only [device_stream_burst_ok, Bool.and_eq_true] at hok
      have hstep := device_stream_step_debounce st device_id p v hok.1 hinv
      simp only [device_stream_burst]
      rw [hstep.2.1]
      rfl
  | g :: rest, st, (p, v), hinv, hok => by
      simp only [device_stream_burst_ok, Bool.and_eq_true] at hok
      have hstep := device_stream_step_debounce st device_id p v hok.1 hinv
      simp only [device_stream_burst]
      exact device_stream_burst_live device_id rest
        (handle_device_stream_message st device_id p v) g hstep.1
        (by simpa [device_stream_burst_ok] using hok.2)

/-- C3: each successfully-merged fragment cancels the key's previously
armed debounce timer (when one was recorded) and arms exactly one new
single-shot timer, leaving exactly one live finalize timer for the key;
hence a burst of `N >= 1` fragments arriving before the timer fires
leaves exactly one live finalize timer — the finalize routine for the
key runs exactly once per burst, not `N` times. Both the telegram
stream and the live-delta stream satisfy this. -/
theorem c3_debounce_single_finalize :
    (∀ (st : CoordState) (device_id p v : String),
      (set_nested_property (telegram_tree st device_id) p v).isSome = true →
      debounce_inv_telegram st device_id = true →
      liveTimersFor (handle_telegram_property_message st device_id p v).timers
          (.telegram device_id) = [st.timers.nextId]
      ∧ (∀ h, alistGet st.pending_telegrams device_id = some (some h) →
          (handle_telegram_property_message st device_id p v).timers.cancelled.contains h
            = true))
  ∧ (∀ (st : CoordState) (device_id p v : String),
      (set_nested_property (device_stream_tree st device_id) p v).isSome = true →
      debounce_inv_stream st device_id = true →
      liveTimersFor (handle_device_stream_message st device_id p v).timers
          (.deviceStream device_id) = [st.timers.nextId]
      ∧ (∀ h, alistGet st.pending_device_streams device_id = some (some h) →
          (handle_device_stream_message st device_id p v).timers.cancelled.contains h
            = true))
  ∧ (∀ (st : CoordState) (device_id : String) (frags : List (String × String)),
      debounce_inv_telegram st device_id = true →
      telegram_burst_ok device_id st frags = true →
      frags ≠ [] →
      (liveTimersFor (telegram_burst device_id st frags).timers
          (.telegram device_id)).length = 1)
  ∧ (∀ (st : CoordState) (device_id : String) (frags : List (String × String)),
      debounce_inv_stream st device_id = true →
      device_stream_burst_ok device_id st frags = true →
      frags ≠ [] →
      (liveTimersFor (device_stream_burst device_id st frags).timers
          (.deviceStream device_id)).length = 1) := by
  refine ⟨?_, ?_, ?_, ?_⟩
  · intro st device_id p v hok hinv
    exact (telegram_step_debounce st device_id p v hok hinv).2
  · intro st device_id p v hok hinv
    exact (device_stream_step_debounce st device_id p v hok hinv).2
  · intro st device_id frags hinv hok hne
    cases frags with
    | nil => exact absurd rfl hne
    | cons f rest => exact telegram_burst_live device_id rest st f hinv hok
  · intro st device_id frags hinv hok hne
    cases frags with
    | nil => exact absurd rfl hne
    | cons f rest => exact device_stream_burst_live device_id rest st f hinv hok

/-- C3 witness: a three-fragment telegram burst and a two-fragment
live-delta burst from a fresh coordinator each leave exactly one live
finalize timer. -/
theorem c3_witness :
    (liveTimersFor
        (telegram_burst "AA" {}
          [("from/functions/0/key", "switch"),
           ("from/functions/0/value", "on"),
           ("from/timestamp", "t1")]).timers
        (.telegram "AA")).length = 1
  ∧ (liveTimersFor
        (device_stream_burst "BB" {}
          [("state/functions/0/key", "dimValue"),
           ("state/functions/0/value", "50")]).timers
        (.deviceStream "BB")).length = 1 :=
  ⟨c3_debounce_single_finalize.2.2.1 {} "AA"
      [("from/functions/0/key", "switch"),
       ("from/functions/0/value", "on"),
       ("from/timestamp", "t1")]
      (by decide) (by decide) (by decide),
   c3_debounce_single_finalize.2.2.2 {} "BB"
      [("state/functions/0/key", "dimValue"),
       ("state/functions/0/value", "50")]
      (by decide) (by decide) (by decide)⟩
